import Mathlib

/-!
Verification of the installation state manager of lunactl.

The development shallowly embeds the filesystem-facing logic of
`src/install.rs` (Installer), `src/uninstall.rs` (Uninstaller) and
`src/base.rs` (LunaInstall). The install directory is modelled by the three
slots the tool manipulates: the `app` directory (kept with its entry list so
that rename(2) semantics on directory targets can be stated), and the two
files `app.asar` and `original.asar`, each carrying its content (bytes
abstracted as a natural number). Filesystem primitives follow the semantics
of the std::fs calls used by the code on the primary (Unix) targets:
`remove_dir_all` fails with NotFound on a missing path, `rename` of a
directory fails when the source is missing or the target is an existing
non-empty directory (ENOTEMPTY) and replaces an existing empty directory,
and `rename` of a file fails when the source is missing and silently
replaces an existing target file.
-/

/-- On-disk layout of the target application's install directory: the three
slots tracked by the tool. `app` is the directory at `install_path/app`
together with its entries when present; `appAsar` and `origAsar` are the
files at `install_path/app.asar` and `install_path/original.asar`, each
carrying its content. -/
structure InstallDir where
  app : Option (List String)
  appAsar : Option Nat
  origAsar : Option Nat
deriving DecidableEq, Repr

/-- Errors surfaced by the install and uninstall paths, one constructor per
bail or io-error site of install.rs and uninstall.rs. -/
inductive Err where
  /-- install.rs:63 map_err: creating the UnzipEngine failed. -/
  | unzipEngineFailed (msg : Nat)
  /-- install.rs:78 map_err: the unzip (download or extraction) failed. -/
  | unzipFailed (msg : Nat)
  /-- install.rs:105 io error of remove_dir_all on app_path (NotFound when
  app_path is absent). -/
  | removeAppDirFailed
  /-- install.rs:108 map_err: rename(injector_path, app_path) failed. -/
  | moveInjectorFailed
  /-- install.rs:118 io error of rename(app_asar_path, original_asar_path). -/
  | backupRenameFailed
  /-- uninstall.rs:56 bail: Neptune does not seem to be installed. -/
  | notInstalled
  /-- uninstall.rs:72 bail: original.asar missing, reinstall required. -/
  | backupMissing
deriving DecidableEq, Repr

/-- Outcome of the fetch performed by download_and_extract
(install.rs:51-81): failure to create the UnzipEngine, failure of the unzip
itself, or an extracted tree. On success the payload records what install
later reads from the tree: the entry list of its neptune-master/injector
directory, or `none` when the archive holds no such directory. -/
inductive FetchOutcome where
  | engineErr (msg : Nat)
  | unzipErr (msg : Nat)
  | extracted (injector : Option (List String))
deriving DecidableEq, Repr

/-- Installer::download_and_extract (install.rs:51-81): maps the fetch
outcome to the result of the method. -/
def downloadAndExtract (f : FetchOutcome) : Except Err (Option (List String)) :=
  match f with
  | .engineErr m => .error (.unzipEngineFailed m)
  | .unzipErr m => .error (.unzipFailed m)
  | .extracted inj => .ok inj

/-- Step of Installer::install at install.rs:103-106: when force is set,
std::fs::remove_dir_all(app_path) runs unconditionally; on a path that does
not exist remove_dir_all returns a NotFound error, which the question-mark
operator propagates. -/
def forcedRemove (force : Bool) (d : InstallDir) : Except Err InstallDir :=
  if force then
    match d.app with
    | none => .error .removeAppDirFailed
    | some _ => .ok { d with app := none }
  else .ok d

/-- Step of Installer::install at install.rs:107-108:
std::fs::rename(injector_path, app_path). The rename fails when the source
is missing (an archive without a neptune-master/injector directory) and when
the target is an existing non-empty directory (ENOTEMPTY); an existing empty
directory target is replaced. -/
def promote (inj : Option (List String)) (d : InstallDir) : Except Err InstallDir :=
  match inj with
  | none => .error .moveInjectorFailed
  | some entries =>
    match d.app with
    | some (_ :: _) => .error .moveInjectorFailed
    | _ => .ok { d with app := some entries }

/-- Step of Installer::install at install.rs:110-124: when original.asar
does not yet exist, rename app.asar to original.asar, failing when app.asar
itself is missing; when original.asar already exists the rename is skipped. -/
def backup (d : InstallDir) : Except Err InstallDir :=
  match d.origAsar with
  | some _ => .ok d
  | none =>
    match d.appAsar with
    | none => .error .backupRenameFailed
    | some c => .ok { d with appAsar := none, origAsar := some c }

/-- Installer::install (install.rs:98-129), run from the given install-dir
state with the injector directory read from the extracted tree: the sequence
of install-dir states reached after each of the three filesystem steps, in
the order the code performs them — forced removal, injector promotion,
backup rename — cut off at the first failing step, paired with the error of
that step if any. -/
def installTrace (force : Bool) (inj : Option (List String)) (d : InstallDir) :
    List InstallDir × Option Err :=
  match forcedRemove force d with
  | .error e => ([], some e)
  | .ok d1 =>
    match promote inj d1 with
    | .error e => ([d1], some e)
    | .ok d2 =>
      match backup d2 with
      | .error e => ([d1, d2], some e)
      | .ok d3 => ([d1, d2, d3], none)

/-- Installer::init (install.rs:39-45): download_and_extract runs first,
then install; a fetch failure aborts before install touches the install
directory. -/
def initTrace (force : Bool) (f : FetchOutcome) (d : InstallDir) :
    List InstallDir × Option Err :=
  match downloadAndExtract f with
  | .error e => ([], some e)
  | .ok inj => installTrace force inj d

/-- Install-dir state after a run of Installer::init: the last state the run
reached, or the starting state when nothing was mutated. -/
def initFinal (force : Bool) (f : FetchOutcome) (d : InstallDir) : InstallDir :=
  (initTrace force f d).1.getLastD d

/-- Uninstaller::uninstall (uninstall.rs:44-78): the not-installed
precondition check (bypassed by force with a warning), then conditional
recursive removal of the app directory, then restoration of original.asar to
app.asar, failing terminally when the backup is missing. Returns the error,
if any, together with the final install-dir state. -/
def uninstallRun (force : Bool) (d : InstallDir) : Option Err × InstallDir :=
  if (d.app.isNone || d.origAsar.isNone) && !force then
    (some .notInstalled, d)
  else
    let d1 := if d.app.isSome then { d with app := none } else d
    match d1.origAsar with
    | some c => (none, { d1 with appAsar := some c, origAsar := none })
    | none => (some .backupMissing, d1)

/-- The four states of the state machine over the presence pair
(app_path, orig_asar_path). -/
inductive PatchState where
  | clean
  | installed
  | backedUpOnly
  | orphaned
deriving DecidableEq, Repr

/-- Presence-pair classification of an install-dir state. -/
def classify (d : InstallDir) : PatchState :=
  match d.app, d.origAsar with
  | none, none => .clean
  | some _, some _ => .installed
  | none, some _ => .backedUpOnly
  | some _, none => .orphaned

/-- Process environment as seen by the constructors: existence and
directory tests for an explicitly given install path, the platform
install-path resolution used when no path is given, and the process-wide
value of std::env::temp_dir() — a single shared location, identical for
every call in the process. -/
structure HostEnv where
  pathExists : String → Bool
  pathIsDir : String → Bool
  resolvedInstallPath : Except String String
  tempDir : String

/-- Command-line options consumed by Installer::new (InstallOpts). -/
structure InstallOpts where
  installPath : Option String
  force : Option Bool

/-- Installer state (install.rs:10-15). -/
structure Installer where
  tempDir : String
  installPath : String
  force : Bool
  finishedInstalling : Bool
deriving DecidableEq, Repr

/-- Installer::new (install.rs:18-37): validates an explicit install path or
resolves one by platform convention, and sets temp_dir to
std::env::temp_dir() — the shared system temporary directory, the same value
for every Installer built in the process, not a fresh allocation. -/
def Installer.new (env : HostEnv) (opts : InstallOpts) : Except String Installer :=
  match opts.installPath with
  | some p =>
    if !env.pathExists p then .error ("Install path does not exist")
    else if !env.pathIsDir p then .error ("Install path is not a directory")
    else .ok ⟨env.tempDir, p, opts.force.getD false, false⟩
  | none =>
    match env.resolvedInstallPath with
    | .error e => .error e
    | .ok p => .ok ⟨env.tempDir, p, opts.force.getD false, false⟩

/-- Installer::cleanup (install.rs:83-96), invoked from Drop
(install.rs:132-141) on every exit path: the directory recursively removed
is self.temp_dir itself — the whole directory named by temp_dir — not the
per-run extraction directory created inside it by download_and_extract. -/
def Installer.cleanupTarget (i : Installer) : String := i.tempDir

/-- Path of the per-run extraction directory chosen by download_and_extract
(install.rs:52-54): a random-suffixed child of temp_dir. -/
def Installer.downloadDir (i : Installer) (randomSuffix : String) : String :=
  i.tempDir ++ "/neptune-master-temp_" ++ randomSuffix

/-- LunaInstall (base.rs:10-17, 39-62): built with a freshly allocated
temporary directory (TempDir::new(), recorded here as the freshTemp argument
supplied by the allocator); its Drop (base.rs:19-37) removes exactly
temp_path, logging, never raising, on failure. -/
structure LunaInstall where
  tempPath : String
  installPath : String
deriving DecidableEq, Repr

/-- LunaInstall::new (base.rs:40-62). -/
def LunaInstall.new (env : HostEnv) (freshTemp : String) (installPath : Option String) :
    Except String LunaInstall :=
  match installPath with
  | some p =>
    if !env.pathExists p then .error ("Install path does not exist")
    else if !env.pathIsDir p then .error ("Install path is not a directory")
    else .ok ⟨freshTemp, p⟩
  | none =>
    match env.resolvedInstallPath with
    | .error e => .error e
    | .ok p => .ok ⟨freshTemp, p⟩

/-- Directory removed by Drop for LunaInstall (base.rs:22-26) in the
non-mock case: exactly temp_path. -/
def LunaInstall.dropTarget (l : LunaInstall) : String := l.tempPath

theorem Installer.new_tempDir (env : HostEnv) (o : InstallOpts) (i : Installer)
    (h : Installer.new env o = .ok i) : i.tempDir = env.tempDir := by
  unfold Installer.new at h
  cases hip : o.installPath with
  | some p =>
    rw [hip] at h
    by_cases he : env.pathExists p
    · by_cases hd : env.pathIsDir p
      · simp [he, hd] at h
        rw [← h]
      · simp [he, hd] at h
    · simp [he] at h
  | none =>
    rw [hip] at h
    cases hr : env.resolvedInstallPath with
    | error e => rw [hr] at h; cases h
    | ok p => rw [hr] at h; cases h; rfl

/-- C1 (counterexample). Running apply (Installer::init) on a concrete Clean
directory — app.asar with content 7, no app directory, no original.asar —
with a successful fetch passes through an Orphaned-classified state
(app_path present, orig_asar_path absent) and never through BackedUpOnly,
contradicting the claimed Clean, BackedUpOnly, Installed ordering in which
the backup rename precedes the promotion. -/
theorem apply_clean_hits_orphaned_never_backedUpOnly :
    PatchState.orphaned ∈
        ((initTrace false (.extracted (some (["hook.js"]))) ⟨none, some 7, none⟩).1.map classify)
      ∧ PatchState.backedUpOnly ∉
        ((initTrace false (.extracted (some (["hook.js"]))) ⟨none, some 7, none⟩).1.map classify) := by
  decide

/-- C1 (amended). During apply from a Clean directory holding app.asar, with
a successful fetch, the promotion rename happens before the first-time
backup: the state sequence classifies as Clean, then Orphaned — app_path
present, original.asar still absent, app.asar still present — then
Installed; BackedUpOnly is never visited, and the run succeeds. -/
theorem apply_clean_promotion_precedes_backup (c : Nat) (inj : List String) :
    (initTrace false (.extracted (some inj)) ⟨none, some c, none⟩).1.map classify
        = [PatchState.clean, PatchState.orphaned, PatchState.installed]
      ∧ (initTrace false (.extracted (some inj)) ⟨none, some c, none⟩).2 = none :=
  ⟨rfl, rfl⟩

/-- C2 (counterexample). On a concrete Clean directory, a failed fetch
aborts apply with the unzip error and no mutation at all: the final state
still has original.asar absent, contradicting the claim that the backup has
already happened and orig_asar_path is present when the fetch fails. -/
theorem apply_fetch_failure_no_backup_concrete :
    initTrace false (.unzipErr 3) ⟨none, some 7, none⟩
        = ([], some (Err.unzipFailed 3))
      ∧ (initFinal false (.unzipErr 3) ⟨none, some 7, none⟩).origAsar = none :=
  ⟨rfl, rfl⟩

/-- C2 (amended). When the fetch or extraction step fails, apply aborts
before any install-directory mutation: the fetch error is returned, the
trace of mutations is empty, and the directory is left exactly as it was —
in particular the backup has not yet occurred, because download_and_extract
runs before install. -/
theorem apply_fetch_failure_leaves_dir_unchanged
    (force : Bool) (f : FetchOutcome) (e : Err) (d : InstallDir)
    (h : downloadAndExtract f = .error e) :
    initTrace force f d = ([], some e) ∧ initFinal force f d = d := by
  constructor
  · unfold initTrace
    rw [h]
  · unfold initFinal initTrace
    rw [h]
    rfl

/-- C2 (witness). The amended theorem applied to a failing fetch over a
concrete Clean directory. -/
theorem apply_fetch_failure_leaves_dir_unchanged_witness :
    initTrace false (.unzipErr 9) ⟨none, some 5, none⟩
        = ([], some (Err.unzipFailed 9))
      ∧ initFinal false (.unzipErr 9) ⟨none, some 5, none⟩ = ⟨none, some 5, none⟩ :=
  apply_fetch_failure_leaves_dir_unchanged false (.unzipErr 9) (Err.unzipFailed 9)
    ⟨none, some 5, none⟩ rfl

/-- C3 (counterexample). An Installed state whose app directory is empty —
app present with no entries, original.asar present with content 5 — lets
apply with force equal to false and a successful fetch run to completion:
the promotion rename replaces the empty directory and the backup is skipped,
so no error is raised at all, contradicting the claim that apply fails with
AlreadyInstalledError on every Installed state. -/
theorem apply_installed_empty_app_succeeds :
    initTrace false (.extracted (some (["injector.js"]))) ⟨some [], none, some 5⟩
      = ([⟨some [], none, some 5⟩, ⟨some (["injector.js"]), none, some 5⟩,
          ⟨some (["injector.js"]), none, some 5⟩], none) :=
  rfl

/-- C3 (amended). The code has no already-installed precondition check and
no AlreadyInstalledError. On an Installed state whose app directory is
non-empty, apply with force equal to false fails — after the fetch — at the
promotion rename with the Failed-to-move-injector error, without mutating
the install directory; a second identical invocation runs on the unchanged
directory and fails the same way. On an Installed state whose app directory
is empty, apply instead succeeds and replaces it. -/
theorem apply_installed_nonempty_fails_at_promotion
    (d : InstallDir) (x : String) (l : List String) (b : Nat)
    (io : Option (List String))
    (happ : d.app = some (x :: l)) (_horig : d.origAsar = some b) :
    initTrace false (.extracted io) d = ([d], some Err.moveInjectorFailed)
      ∧ initFinal false (.extracted io) d = d
      ∧ initTrace false (.extracted io) (initFinal false (.extracted io) d)
          = ([d], some Err.moveInjectorFailed) := by
  have hmain : initTrace false (.extracted io) d = ([d], some Err.moveInjectorFailed) := by
    cases io with
    | none => simp [initTrace, downloadAndExtract, installTrace, forcedRemove, promote]
    | some inj => simp [initTrace, downloadAndExtract, installTrace, forcedRemove, promote, happ]
  have hfin : initFinal false (.extracted io) d = d := by
    unfold initFinal
    rw [hmain]
    rfl
  exact ⟨hmain, hfin, by rw [hfin]; exact hmain⟩

/-- C3 (witness). The amended theorem applied to a concrete Installed state
whose app directory holds one entry. -/
theorem apply_installed_nonempty_fails_at_promotion_witness :
    initTrace false (.extracted (some ([])))
        ⟨some (["index.js"]), none, some 3⟩
      = ([⟨some (["index.js"]), none, some 3⟩], some Err.moveInjectorFailed) :=
  (apply_installed_nonempty_fails_at_promotion ⟨some (["index.js"]), none, some 3⟩
    ("index.js") [] 3 (some []) rfl rfl).1

/-- C4 (confirmed). From a fresh Clean directory holding app.asar with
content c, a successful apply followed by revert with force equal to false
restores app.asar with the same content c byte for byte, removes the app
directory, and returns the directory to the Clean state it started from. -/
theorem apply_then_revert_round_trip (c : Nat) (inj : List String) :
    (initTrace false (.extracted (some inj)) ⟨none, some c, none⟩).2 = none
      ∧ uninstallRun false (initFinal false (.extracted (some inj)) ⟨none, some c, none⟩)
          = (none, ⟨none, some c, none⟩) :=
  ⟨rfl, rfl⟩

/-- C5 (confirmed). On any state with original.asar absent, revert with
force equal to true fails with the terminal backup-missing error, never
suppressed by force, and the app directory — if it existed — has already
been removed by the time of that failure: the final state has the app
directory absent, app.asar untouched, original.asar still absent. -/
theorem revert_force_backup_missing_fatal (ap : Option (List String)) (aa : Option Nat) :
    uninstallRun true ⟨ap, aa, none⟩ = (some Err.backupMissing, ⟨none, aa, none⟩) := by
  cases ap <;> rfl

/-- C6 (confirmed). Whenever the app directory or the backup original.asar
is absent, revert with force equal to false fails with the not-installed
error and leaves the directory exactly unchanged. -/
theorem revert_noforce_not_installed (ap : Option (List String)) (aa oa : Option Nat)
    (h : ap = none ∨ oa = none) :
    uninstallRun false ⟨ap, aa, oa⟩ = (some Err.notInstalled, ⟨ap, aa, oa⟩) := by
  rcases h with h | h
  · subst h; rfl
  · subst h; cases ap <;> rfl

/-- C6 (witness). The theorem applied to a concrete Clean directory. -/
theorem revert_noforce_not_installed_witness :
    uninstallRun false ⟨none, some 2, none⟩ = (some Err.notInstalled, ⟨none, some 2, none⟩) :=
  revert_noforce_not_installed none (some 2) none (Or.inl rfl)

/-- C7 (confirmed). An install directory holding app.asar only — content c,
no app directory, no original.asar — ends, after a successful apply with
force equal to false, with the app directory present (the injector entries),
original.asar present with content c, and app.asar absent. -/
theorem apply_clean_yields_installed (c : Nat) (inj : List String) :
    (initTrace false (.extracted (some inj)) ⟨none, some c, none⟩).2 = none
      ∧ initFinal false (.extracted (some inj)) ⟨none, some c, none⟩
          = ⟨some inj, none, some c⟩ :=
  ⟨rfl, rfl⟩

/-- C8 (confirmed). From the BackedUpOnly state — original.asar present with
content c, app.asar absent, app directory absent — apply with a successful
fetch succeeds: the backup rename is skipped, so no attempt is made to
rename the nonexistent app.asar (such an attempt would have failed), and the
run goes through fetch and promotion to the Installed state with
original.asar untouched. -/
theorem apply_backed_up_only_skips_backup (c : Nat) (inj : List String) :
    initTrace false (.extracted (some inj)) ⟨none, none, some c⟩
      = ([⟨none, none, some c⟩, ⟨some inj, none, some c⟩, ⟨some inj, none, some c⟩], none) :=
  rfl

/-- C9 (code bug evidence). Every Installer built by Installer::new in the
same process receives the same scratch directory — std::env::temp_dir(), the
shared system temporary directory, not a freshly allocated one — and the
cleanup run from Drop removes that whole shared directory. -/
theorem installer_scratch_shared_and_cleanup_removes_it
    (env : HostEnv) (o1 o2 : InstallOpts) (i1 i2 : Installer)
    (h1 : Installer.new env o1 = .ok i1) (h2 : Installer.new env o2 = .ok i2) :
    i1.tempDir = i2.tempDir ∧ Installer.cleanupTarget i1 = env.tempDir :=
  ⟨(Installer.new_tempDir env o1 i1 h1).trans (Installer.new_tempDir env o2 i2 h2).symm,
   Installer.new_tempDir env o1 i1 h1⟩

/-- C9 (witness). Two concrete Installers built in a process whose
std::env::temp_dir() is the path tmp: both receive tmp as their scratch
directory, and tmp — the shared directory itself — is what cleanup
removes. -/
theorem installer_scratch_shared_witness :
    (⟨("tmp"), ("a"), false, false⟩ : Installer).tempDir
        = (⟨("tmp"), ("b"), true, false⟩ : Installer).tempDir
      ∧ Installer.cleanupTarget ⟨("tmp"), ("a"), false, false⟩ = ("tmp") :=
  installer_scratch_shared_and_cleanup_removes_it
    ⟨fun _ => true, fun _ => true, .ok ("r"), ("tmp")⟩
    ⟨some ("a"), none⟩ ⟨some ("b"), some true⟩
    ⟨("tmp"), ("a"), false, false⟩ ⟨("tmp"), ("b"), true, false⟩ rfl rfl

/-- C10 (confirmed). On any state without an app directory — Clean and
BackedUpOnly alike — apply with force equal to true and a successful fetch
fails with the error of the forced remove_dir_all on the nonexistent
app_path, before the promotion and backup renames are attempted: the
mutation trace is empty and the directory is left unchanged. -/
theorem apply_force_missing_app_fails_before_renames
    (aa oa : Option Nat) (io : Option (List String)) :
    initTrace true (.extracted io) ⟨none, aa, oa⟩ = ([], some Err.removeAppDirFailed)
      ∧ initFinal true (.extracted io) ⟨none, aa, oa⟩ = ⟨none, aa, oa⟩ :=
  ⟨rfl, rfl⟩
